import Mathlib

/-!
Shallow embedding of the Issue-Estimator backend (`app.py`, `llm_analyzer.py`)
and proofs about its specification claims.

Python floats are modelled as exact rationals; Python `round` (banker's
rounding at a decimal position) is modelled over the exact decimal value.
Machine-level float representation effects are outside the model.
-/

set_option maxRecDepth 10000

namespace IssueEstimator

/-- Python integer rounding, half to even (banker's rounding), over exact
rationals. -/
def pyRoundInt (q : ℚ) : ℤ :=
  if q - ⌊q⌋ < 1/2 then ⌊q⌋
  else if 1/2 < q - ⌊q⌋ then ⌊q⌋ + 1
  else if Even ⌊q⌋ then ⌊q⌋ else ⌊q⌋ + 1

/-- Python round with ndigits 1. -/
def round1 (q : ℚ) : ℚ := (pyRoundInt (10 * q) : ℚ) / 10

/-- Python round with ndigits 2. -/
def round2 (q : ℚ) : ℚ := (pyRoundInt (100 * q) : ℚ) / 100

/-- Python string slicing with an upper bound, over the character sequence of
the string. -/
def pyTake (s : String) (n : ℕ) : String := ⟨s.data.take n⟩

/-- Python str.strip with no argument: remove leading and trailing
whitespace, over the character sequence of the string. -/
def pyStrip (s : String) : String :=
  ⟨((s.data.dropWhile Char.isWhitespace).reverse.dropWhile Char.isWhitespace).reverse⟩

/-- Python string comparison: lexicographic on the code-point sequences. -/
def strLe (a b : String) : Prop :=
  List.Lex (fun c d => c < d) a.data b.data ∨ a = b

instance : DecidableRel strLe := fun a b =>
  inferInstanceAs (Decidable (List.Lex (fun c d => c < d) a.data b.data ∨ a = b))

instance : IsTotal String strLe where
  total a b := by
    rcases trichotomous_of (List.Lex (fun c d : Char => c < d)) a.data b.data with h | h | h
    · exact Or.inl (Or.inl h)
    · exact Or.inl (Or.inr (by cases a; cases b; exact congrArg String.mk h))
    · exact Or.inr (Or.inl h)

instance : IsTrans String strLe where
  trans a b c hab hbc := by
    rcases hab with hab | rfl
    · rcases hbc with hbc | rfl
      · exact Or.inl (trans_of (List.Lex (fun c d : Char => c < d)) hab hbc)
      · exact Or.inl hab
    · exact hbc

instance : IsAntisymm String strLe where
  antisymm a b hab hba := by
    rcases hab with hab | rfl
    · rcases hba with hba | rfl
      · exact absurd hba (asymm_of (List.Lex (fun c d : Char => c < d)) hab)
      · rfl
    · rfl

/-! ## llm_analyzer.py: LLMAnalyzer -/

/-- The class constant HOURS_RANGES of LLMAnalyzer: the closed hours interval
of each complexity tier. In the source it is a Python dict indexed only after
complexity has been validated to one of the three keys, so the final branch
is only ever reached with the key High. -/
def HOURS_RANGES (complexity : String) : ℚ × ℚ :=
  if complexity = "Low" then (1, 6)
  else if complexity = "Medium" then (6, 15)
  else (15, 25)

/-- Outcome of the textual JSON-extraction stage of LLMAnalyzer's
method named parse response (fence stripping, balanced-brace scan,
json.loads, float coercion of the hours field). The string munging itself is
abstracted: a raw model response either fails that stage with a caught
exception (JSONDecodeError, KeyError or ValueError, carrying the exception
text and the first 100 characters of the response), or yields a JSON object
whose relevant fields are an optional complexity string, an optional numeric
hours value and an optional reasoning string (absent keys map to none). -/
inductive ParsedForm where
  | failure (excMsg : String) (rawPrefix : String)
  | object (complexity : Option String) (hours : Option ℚ) (reasoning : Option String)
deriving DecidableEq

/-- The dictionary returned by the parse stage: complexity, estimated hours
and reasoning text. -/
structure ParseResult where
  complexity : String
  estimated_hours : ℚ
  reasoning : String
deriving DecidableEq

/-- Embedding of the response-parsing method of LLMAnalyzer (source lines
171-267 of llm_analyzer.py): validate the complexity against the three-value
taxonomy (defaulting and coercing to Medium), default missing hours to 8,
clamp hours to the tier interval, round to one decimal; on a caught parsing
exception return the default Medium / 8.0 verdict with a reasoning string
describing the parsing error. -/
def parse_llm_response : ParsedForm → ParseResult
  | .failure excMsg rawPrefix =>
      { complexity := "Medium", estimated_hours := 8,
        reasoning := "Default estimate due to parsing error: " ++ excMsg ++
          ". Raw response: " ++ rawPrefix ++ "..." }
  | .object jsonComplexity jsonHours jsonReasoning =>
      let complexity0 := jsonComplexity.getD "Medium"
      let complexity :=
        if complexity0 = "Low" ∨ complexity0 = "Medium" ∨ complexity0 = "High"
        then complexity0 else "Medium"
      let hours0 := jsonHours.getD 8
      let lo := (HOURS_RANGES complexity).1
      let hi := (HOURS_RANGES complexity).2
      let hours := if hours0 < lo then lo else if hi < hours0 then hi else hours0
      { complexity := complexity, estimated_hours := round1 hours,
        reasoning := jsonReasoning.getD "No detailed reasoning provided." }

/-- The analysis dictionary returned by the issue-analysis method of
LLMAnalyzer: a ParseResult plus the derived estimated cost. -/
structure Analysis where
  complexity : String
  estimated_hours : ℚ
  estimated_cost : ℚ
  reasoning : String
deriving DecidableEq

/-- The class constant DEFAULT_HOURLY_RATE of LLMAnalyzer. -/
def DEFAULT_HOURLY_RATE : ℚ := 80

/-- Python sorted on a list of strings (lexicographic order on code points).
Insertion sort computes the unique sorted permutation for the total order on
String, hence agrees with any correct sorting algorithm. -/
def sortedLabels (labels : List String) : List String :=
  List.insertionSort strLe labels

/-- The cache key computed by the issue-analysis method of LLMAnalyzer:
in the source, the MD5 hex digest of the concatenation (no separators) of the
title, the body truncated to 1000 characters, and the sorted labels. MD5 is
a deterministic function of its input string, so it is modelled as the
concatenated string itself: equal concatenations give equal keys in both the
source and the model, and the key collisions studied here are collisions of
the concatenation, independent of MD5. -/
def cache_key (title body : String) (labels : List String) : String :=
  title ++ pyTake body 1000 ++ String.join (sortedLabels labels)

/-- Outcome of one attempted external classification call (the method of
LLMAnalyzer wrapping the chat-completion request, including its retry loop):
either every attempt raised (network error, timeout, upstream failure) and the
last exception propagates, or some attempt returned a response text, given
here through the parsed form of that text. -/
inductive LLMCall where
  | raised (excMsg : String)
  | responded (pf : ParsedForm)
deriving DecidableEq

/-- Embedding of the issue-analysis method of LLMAnalyzer (source lines
269-310 of llm_analyzer.py). State is the in-memory cache, an association
list keyed by cache_key. Returns the analysis dictionary, the updated cache,
and whether an external classification request was performed (false exactly
on a cache hit). On a cache miss the external call is attempted; a response
is parsed (the parse stage itself never raises outward), given an estimated
cost, cached and returned; a raised exception is caught and the default
Medium / 8.0 verdict is returned without touching the cache. -/
def analyze_issue (cache : List (String × Analysis)) (call : LLMCall)
    (title body : String) (labels : List String) :
    Analysis × List (String × Analysis) × Bool :=
  let key := cache_key title body labels
  match cache.lookup key with
  | some cached => (cached, cache, false)
  | none =>
    match call with
    | .responded pf =>
        let r := parse_llm_response pf
        let result : Analysis :=
          { complexity := r.complexity, estimated_hours := r.estimated_hours,
            estimated_cost := round2 (r.estimated_hours * DEFAULT_HOURLY_RATE),
            reasoning := r.reasoning }
        (result, (key, result) :: cache, true)
    | .raised excMsg =>
        ({ complexity := "Medium", estimated_hours := 8,
           estimated_cost := round2 (8 * DEFAULT_HOURLY_RATE),
           reasoning := "Default estimate due to error: " ++ excMsg ++
             ". Manual review recommended." },
         cache, true)

/-! ## app.py: GitHubAPIClient.fetch_issues -/

/-- One JSON item returned by the issue-listing endpoint. Only the presence
of a pull request marker steers the control flow of the fetch loop; the rest
of the payload is carried opaquely as a numeric identifier. -/
structure GHItem where
  isPullRequest : Bool
  itemId : ℕ
deriving DecidableEq

/-- One HTTP response of the issue-listing endpoint: the status code, the
optional rate-limit-remaining header, and the JSON item list of the body. -/
structure GHResponse where
  status : ℕ
  rateLimitRemaining : Option String
  items : List GHItem
deriving DecidableEq

/-- The ValueError exceptions raised by the fetch loop, as typed failures. -/
inductive FetchError where
  | notFound
  | rateLimitZero (collected : ℕ)
  | rateLimited
  | apiError (status : ℕ)
deriving DecidableEq

/-- The exception message attached to each failure in the source. -/
def fetchErrorMessage : FetchError → String
  | .notFound => "Repository not found or is private"
  | .rateLimitZero collected =>
      "GitHub API rate limit exceeded (0 requests remaining). Please add a GITHUB_TOKEN environment variable for higher limits (5000/hour vs 60/hour). Current issues fetched: " ++ toString collected
  | .rateLimited => "API rate limit exceeded. Please provide a GitHub token."
  | .apiError status => "GitHub API error: " ++ toString status

/-- Result of one iteration of the fetch loop body: raise a typed failure,
break out of the loop with the accumulated issues, or continue with the next
page carrying the grown accumulator. -/
inductive StepResult where
  | failed (e : FetchError)
  | done (issues : List GHItem)
  | nextPage (issues : List GHItem)
deriving DecidableEq

/-- The fixed page size requested by the fetch loop. -/
def per_page : ℕ := 100

/-- Embedding of one iteration of the while-loop body of the issue fetcher
(source lines 100-154 of app.py): map status 404, 403 (with the zero-remaining
sub-case) and any other non-200 to typed failures; otherwise filter pull
requests out of the raw batch, stop when nothing remains after filtering,
extend the accumulator, and stop when the raw batch is shorter than the page
size, else continue to the next page. -/
def processPage (response : GHResponse) (issues : List GHItem) : StepResult :=
  if response.status = 404 then .failed .notFound
  else if response.status = 403 then
    if response.rateLimitRemaining.getD "unknown" = "0" then
      .failed (.rateLimitZero issues.length)
    else
      .failed .rateLimited
  else if response.status ≠ 200 then .failed (.apiError response.status)
  else
    let batch := response.items
    let issues_only := batch.filter (fun item => !item.isPullRequest)
    if issues_only.isEmpty then .done issues
    else
      let issues2 := issues ++ issues_only
      if batch.length < per_page then .done issues2
      else .nextPage issues2

/-- Overall outcome of the fetch loop: a raised typed failure, or the
collected issues together with the last page number that was requested. -/
inductive FetchResult where
  | failed (e : FetchError)
  | ok (issues : List GHItem) (lastPage : ℕ)
deriving DecidableEq

/-- The fetch loop, iterated against a host modelled as a map from page
number to response, with explicit fuel (the source loop has no intrinsic
bound; none means the fuel ran out before the loop ended). -/
def fetchIssuesAux (host : ℕ → GHResponse) :
    ℕ → ℕ → List GHItem → Option FetchResult
  | 0, _, _ => none
  | fuel + 1, page, issues =>
    match processPage (host page) issues with
    | .failed e => some (.failed e)
    | .done issues2 => some (.ok issues2 page)
    | .nextPage issues2 => fetchIssuesAux host fuel (page + 1) issues2

/-- Embedding of the issue fetcher of GitHubAPIClient (source lines 83-157
of app.py): start at page 1 with an empty accumulator. -/
def fetch_issues (host : ℕ → GHResponse) (fuel : ℕ) : Option FetchResult :=
  fetchIssuesAux host fuel 1 []

/-- A host whose pages 1 and 2 hold 100 plain issues each and whose page 3
holds 37 plain issues: the pagination scenario of the specification. -/
def host237 : ℕ → GHResponse := fun page =>
  if page ≤ 2 then ⟨200, none, List.replicate 100 ⟨false, 0⟩⟩
  else ⟨200, none, List.replicate 37 ⟨false, 0⟩⟩

/-- A host every page of which holds 100 items that are all pull requests. -/
def hostOnlyPRs : ℕ → GHResponse := fun _ =>
  ⟨200, none, List.replicate 100 ⟨true, 0⟩⟩

/-- A full page of raw size 100 mixing 60 issues with 40 pull requests. -/
def mixedPage : GHResponse :=
  ⟨200, none, List.replicate 60 ⟨false, 0⟩ ++ List.replicate 40 ⟨true, 0⟩⟩

/-! ## app.py: process_single_repo / process_multiple_repos -/

/-- The per-issue analysis dictionary assembled by the repository processor. -/
structure AnalyzedIssue where
  issue_number : ℕ
  title : String
  complexity : String
  estimated_hours : ℚ
  estimated_cost : ℚ
  labels : String
  url : String
  reasoning : String
deriving DecidableEq

/-- Outcome of the call into the analyzer for one issue as observed by the
repository processor: the analysis dictionary it returned (it contains the
complexity, hours and reasoning fields the processor reads), or an exception
it raised, caught by the per-issue try block. -/
inductive ClassifyOutcome where
  | verdict (complexity : String) (hours : ℚ) (reasoning : String)
  | raised (excMsg : String)
deriving DecidableEq

/-- One cleaned issue as produced by the issue-data extraction step, paired
with the classification outcome the analyzer yields for it. -/
structure IssueData where
  number : ℕ
  title : String
  body : String
  labels : List String
  url : String
  outcome : ClassifyOutcome
deriving DecidableEq

/-- Outcome of resolving and fetching one repository reference: either the
URL parse or the issue fetch raised (caught by the per-repository try block),
or the fetch returned a cleaned issue list for an owner and name. -/
inductive RepoOutcome where
  | failure (excMsg : String)
  | fetched (owner repoName : String) (issues : List IssueData)
deriving DecidableEq

/-- One requested repository reference together with its resolution. -/
structure RepoSpec where
  url : String
  outcome : RepoOutcome
deriving DecidableEq

/-- The per-repository result dictionary. -/
structure RepoResult where
  repo_url : String
  owner : String
  repoName : String
  issues : List AnalyzedIssue
  total_cost : ℚ
  total_hours : ℚ
  issue_count : ℕ
  status : String
  errorMsg : Option String
  message : Option String
deriving DecidableEq

/-- Projection of the mutable progress-tracking record of one session onto
the fields the claims concern: status, numeric progress, and message. -/
structure SessionState where
  status : String
  progress : ℤ
  message : String
deriving DecidableEq

/-- The base progress offset of repository repoIndex (1-indexed) out of
totalRepos, as computed in the source with Python int() truncation of a
non-negative value, i.e. the floor. -/
def baseProgress (repoIndex totalRepos : ℕ) : ℤ :=
  ⌊((repoIndex : ℚ) - 1) / (totalRepos : ℚ) * 100⌋

/-- The progress value written after starting issue idx of issueCount inside
repository repoIndex of totalRepos (source lines 234-237 of app.py). -/
def issueProgress (repoIndex totalRepos idx issueCount : ℕ) : ℤ :=
  min (baseProgress repoIndex totalRepos +
    ⌊((idx : ℚ) / (issueCount : ℚ)) * (100 / (totalRepos : ℚ))⌋) 99

/-- Python string join with a comma separator, applied to the label list. -/
def joinLabels (labels : List String) : String := String.intercalate ", " labels

/-- The per-issue body of the repository processor: on a returned analysis,
build the analyzed-issue dictionary (cost = hours times rate, rounded to two
decimals) and contribute the unrounded cost to the running total; on a raised
exception, build the sentinel dictionary with complexity Unknown, zero hours
and cost and the fixed failure reasoning, contributing nothing to the total. -/
def classifyIssue (hourly_rate : ℚ) (issue : IssueData) : AnalyzedIssue × ℚ :=
  match issue.outcome with
  | .verdict complexity hours reasoning =>
      ({ issue_number := issue.number, title := issue.title, complexity := complexity,
         estimated_hours := hours, estimated_cost := round2 (hours * hourly_rate),
         labels := joinLabels issue.labels, url := issue.url, reasoning := reasoning },
       hours * hourly_rate)
  | .raised _ =>
      ({ issue_number := issue.number, title := issue.title, complexity := "Unknown",
         estimated_hours := 0, estimated_cost := 0,
         labels := joinLabels issue.labels, url := issue.url,
         reasoning := "Analysis failed. Manual review required." }, 0)

/-- The progress-record write performed just before classifying issue idx of
issueCount in repository repoIndex of totalRepos: it sets progress and
message and leaves the session status untouched. -/
def issueEvent (st : SessionState) (repoIndex totalRepos idx issueCount : ℕ)
    (issue : IssueData) : SessionState :=
  { st with progress := issueProgress repoIndex totalRepos idx issueCount,
            message := s!"Repo {repoIndex}/{totalRepos}: Analyzing issue {idx}/{issueCount}: {pyTake issue.title 50}..." }

/-- Embedding of process_single_repo (source lines 186-316 of app.py).
Returns the repository result dictionary and the ordered list of
progress-record writes it performs. A caught parse or fetch exception yields
an error result with empty owner and name and no writes; an empty issue list
yields a success result with a descriptive message; otherwise each issue is
classified sequentially with one progress write per issue, and totals are
rounded (cost to two decimals, hours to one). -/
def process_single_repo (hourly_rate : ℚ) (spec : RepoSpec)
    (repoIndex totalRepos : ℕ) (st : SessionState) : RepoResult × List SessionState :=
  match spec.outcome with
  | .failure excMsg =>
      ({ repo_url := spec.url, owner := "", repoName := "", issues := [],
         total_cost := 0, total_hours := 0, issue_count := 0,
         status := "error", errorMsg := some excMsg, message := none }, [])
  | .fetched owner repoName issues =>
      if issues.isEmpty then
        ({ repo_url := spec.url, owner := owner, repoName := repoName, issues := [],
           total_cost := 0, total_hours := 0, issue_count := 0,
           status := "success", errorMsg := none,
           message := some "No open issues found" }, [])
      else
        let events := issues.enum.map fun p =>
          issueEvent st repoIndex totalRepos (p.1 + 1) issues.length p.2
        let analyzed := issues.map fun issue => (classifyIssue hourly_rate issue).1
        let total_cost := (issues.map fun issue => (classifyIssue hourly_rate issue).2).sum
        let total_hours := (analyzed.map AnalyzedIssue.estimated_hours).sum
        ({ repo_url := spec.url, owner := owner, repoName := repoName,
           issues := analyzed, total_cost := round2 total_cost,
           total_hours := round1 total_hours, issue_count := analyzed.length,
           status := "success", errorMsg := none, message := none },
         events)

/-- The final progress-record write of a session that ran to the end of its
repository list: status complete, progress 100. -/
def completeEvent : SessionState :=
  { status := "complete", progress := 100, message := "Analysis complete!" }

/-- The progress-record write performed when repository repoIndex of
totalRepos starts (source lines 330-336 of app.py). -/
def repoBaseEvent (st0 : SessionState) (repoIndex totalRepos : ℕ) : SessionState :=
  { st0 with progress := baseProgress repoIndex totalRepos,
             message := s!"Analyzing repository {repoIndex}/{totalRepos}..." }

/-- Embedding of process_multiple_repos (source lines 319-371 of app.py) on
its normal path: process each repository sequentially (process_single_repo
never raises, so the outer exception handler is unreachable from delegated
work), then mark the session complete with progress 100. Returns the
repository results and the full ordered trace of the session's
progress-record states, beginning with the seed state st0 written by the
submission handler and ending with the completion write. Intermediate writes
never touch the status field, so every snapshot before the last carries the
seed status. -/
def process_multiple_repos (hourly_rate : ℚ) (repos : List RepoSpec)
    (st0 : SessionState) : List RepoResult × List SessionState :=
  let totalRepos := repos.length
  let per := repos.enum.map fun p =>
    let repoIndex := p.1 + 1
    let step := process_single_repo hourly_rate p.2 repoIndex totalRepos st0
    (step.1, repoBaseEvent st0 repoIndex totalRepos :: step.2)
  (per.map Prod.fst, st0 :: ((per.map Prod.snd).flatten ++ [completeEvent]))

/-- The seed progress record written by the submission handler before the
background job starts. -/
def connectingSeed : SessionState :=
  { status := "connecting", progress := 0, message := "Connecting to GitHub..." }

/-! ## app.py: the submission endpoint analyze_issues -/

/-- HTTP-level outcome of the submission endpoint's validation stage. -/
inductive SubmitResult where
  | badRequest (errorText : String)
  | accepted (repoCount : ℕ)
deriving DecidableEq

/-- The effective repository-reference list of a submission: the repo_urls
array, or the single legacy repo_url field (when the array is empty and the
field is a truthy string) normalized into a one-element list, with blank
entries dropped and the rest whitespace-stripped (source lines 546-554 of
app.py). -/
def effectiveRefs (repo_urls : List String) (repo_url : Option String) : List String :=
  let urls0 :=
    if repo_urls.isEmpty then
      match repo_url with
      | some u => if u = "" then repo_urls else [u]
      | none => repo_urls
    else repo_urls
  (urls0.filter fun u => !(u == "") && !(pyStrip u == "")).map (fun u => pyStrip u)

/-- Embedding of the validation stage of the POST analyze endpoint (source
lines 530-597 of app.py). Returns the HTTP outcome and whether a session was
started (progress record seeded and background thread launched); a session
starts only after all three validations pass. -/
def analyze_issues_endpoint (repo_urls : List String) (repo_url : Option String)
    (hourly_rate : ℚ) : SubmitResult × Bool :=
  let urls := effectiveRefs repo_urls repo_url
  if urls.isEmpty then (.badRequest "At least one repository URL is required", false)
  else if 5 < urls.length then (.badRequest "Maximum 5 repositories allowed", false)
  else if hourly_rate ≤ 0 then (.badRequest "Hourly rate must be positive", false)
  else (.accepted urls.length, true)

/-! ## Concrete scenarios used by the claims -/

/-- One issue whose classification succeeds with a Low / 2 hours verdict. -/
def mkIssue (k : ℕ) : IssueData := ⟨k, "T", "", [], "u", .verdict "Low" 2 "r"⟩

/-- Ten issues whose classifications all succeed. -/
def issues10 : List IssueData := (List.range 10).map mkIssue

/-- A session over two repositories of ten issues each, all successful. -/
def repos2 : List RepoSpec :=
  [⟨"u1", .fetched "o" "r1" issues10⟩, ⟨"u2", .fetched "o" "r2" issues10⟩]

/-- The progress-record trace of that session, from the seed write to the
completion write. -/
def trace2 : List SessionState := (process_multiple_repos 50 repos2 connectingSeed).2

/-- A session over one repository with one successful issue and one
repository whose reference is malformed. -/
def reposMixed : List RepoSpec :=
  [⟨"https://github.com/o/r", .fetched "o" "r" [mkIssue 1]⟩,
   ⟨"not a url", .failure "Invalid GitHub repository URL format"⟩]

/-! ## Helper lemmas -/

theorem pyRoundInt_intCast (z : ℤ) : pyRoundInt (z : ℚ) = z := by
  unfold pyRoundInt
  norm_num

theorem round1_intCast (z : ℤ) : round1 (z : ℚ) = z := by
  unfold round1
  rw [show ((10 : ℚ) * z) = ((10 * z : ℤ) : ℚ) by push_cast; ring, pyRoundInt_intCast]
  push_cast
  ring

theorem round2_intCast (z : ℤ) : round2 (z : ℚ) = z := by
  unfold round2
  rw [show ((100 : ℚ) * z) = ((100 * z : ℤ) : ℚ) by push_cast; ring, pyRoundInt_intCast]
  push_cast
  ring

theorem le_pyRoundInt {a : ℤ} {q : ℚ} (h : (a : ℚ) ≤ q) : a ≤ pyRoundInt q := by
  unfold pyRoundInt
  have hf : a ≤ ⌊q⌋ := Int.le_floor.2 h
  split_ifs <;> omega

theorem pyRoundInt_le {b : ℤ} {q : ℚ} (h : q ≤ (b : ℚ)) : pyRoundInt q ≤ b := by
  unfold pyRoundInt
  have hfb : ⌊q⌋ ≤ b := le_trans (Int.floor_le_floor h) (by simp)
  have key : (0 : ℚ) < q - ⌊q⌋ → ⌊q⌋ + 1 ≤ b := by
    intro hpos
    have h1 : (⌊q⌋ : ℚ) < q := by linarith
    have h2 : (⌊q⌋ : ℚ) < (b : ℚ) := lt_of_lt_of_le h1 h
    have h3 : ⌊q⌋ < b := by exact_mod_cast h2
    omega
  split_ifs with h1 h2 h3
  · exact hfb
  · exact key (by linarith [not_lt.mp h1])
  · exact hfb
  · exact key (by linarith [not_lt.mp h1])

theorem round1_bounds {a b : ℤ} {x : ℚ} (h1 : (a : ℚ) ≤ x) (h2 : x ≤ (b : ℚ)) :
    (a : ℚ) ≤ round1 x ∧ round1 x ≤ (b : ℚ) := by
  unfold round1
  have hlo : (10 * a : ℤ) ≤ pyRoundInt (10 * x) := le_pyRoundInt (by push_cast; linarith)
  have hhi : pyRoundInt (10 * x) ≤ (10 * b : ℤ) := pyRoundInt_le (by push_cast; linarith)
  have hlo2 : ((10 * a : ℤ) : ℚ) ≤ (pyRoundInt (10 * x) : ℚ) := by exact_mod_cast hlo
  have hhi2 : ((pyRoundInt (10 * x) : ℤ) : ℚ) ≤ ((10 * b : ℤ) : ℚ) := by exact_mod_cast hhi
  push_cast at hlo2 hhi2
  constructor <;> [linarith; linarith]

theorem baseProgress_eq (i n : ℕ) (hi : 1 ≤ i) :
    baseProgress i n = (((i - 1) * 100 : ℕ) : ℤ) / (n : ℤ) := by
  unfold baseProgress
  rw [show ((i : ℚ) - 1) = (((i - 1 : ℕ)) : ℚ) by rw [Nat.cast_sub hi]; norm_num,
      div_mul_eq_mul_div,
      show ((i - 1 : ℕ) : ℚ) * 100 = (((i - 1) * 100 : ℕ) : ℚ) by push_cast; ring]
  exact_mod_cast Rat.floor_natCast_div_natCast ((i - 1) * 100) n

theorem issueProgress_eq (i n j m : ℕ) (hi : 1 ≤ i) :
    issueProgress i n j m =
      min ((((i - 1) * 100 : ℕ) : ℤ) / (n : ℤ) + ((j * 100 : ℕ) : ℤ) / ((m * n : ℕ) : ℤ)) 99 := by
  unfold issueProgress
  rw [baseProgress_eq i n hi, div_mul_div_comm,
      show ((j : ℚ)) * 100 = ((j * 100 : ℕ) : ℚ) by push_cast; ring,
      show ((m : ℚ)) * n = ((m * n : ℕ) : ℚ) by push_cast; ring]
  rw [Rat.floor_natCast_div_natCast (j * 100) (m * n)]

theorem sortedLabels_perm {l1 l2 : List String} (h : l1.Perm l2) :
    sortedLabels l1 = sortedLabels l2 := by
  unfold sortedLabels
  exact List.eq_of_perm_of_sorted
    (((List.perm_insertionSort strLe l1).trans h).trans (List.perm_insertionSort strLe l2).symm)
    (List.sorted_insertionSort strLe l1) (List.sorted_insertionSort strLe l2)

theorem cache_key_perm (title body : String) {l1 l2 : List String} (h : l1.Perm l2) :
    cache_key title body l1 = cache_key title body l2 := by
  unfold cache_key
  rw [sortedLabels_perm h]

theorem clamp_bounds {lo hi x : ℚ} (h : lo ≤ hi) :
    lo ≤ (if x < lo then lo else if hi < x then hi else x) ∧
    (if x < lo then lo else if hi < x then hi else x) ≤ hi := by
  split_ifs with h1 h2 <;> constructor <;> linarith

theorem round1_clamp_bounds {a b : ℤ} (hab : (a : ℚ) ≤ (b : ℚ)) (x : ℚ) :
    (a : ℚ) ≤ round1 (if x < (a : ℚ) then (a : ℚ) else if (b : ℚ) < x then (b : ℚ) else x) ∧
    round1 (if x < (a : ℚ) then (a : ℚ) else if (b : ℚ) < x then (b : ℚ) else x) ≤ (b : ℚ) := by
  have h := clamp_bounds (x := x) hab
  exact round1_bounds h.1 h.2

theorem hours_range_round1 (C : String) (x : ℚ) :
    (HOURS_RANGES C).1 ≤
      round1 (if x < (HOURS_RANGES C).1 then (HOURS_RANGES C).1
              else if (HOURS_RANGES C).2 < x then (HOURS_RANGES C).2 else x) ∧
    round1 (if x < (HOURS_RANGES C).1 then (HOURS_RANGES C).1
            else if (HOURS_RANGES C).2 < x then (HOURS_RANGES C).2 else x) ≤
      (HOURS_RANGES C).2 := by
  by_cases h1 : C = "Low"
  · simp only [HOURS_RANGES, h1, if_pos]
    have h := round1_clamp_bounds (a := 1) (b := 6) (by norm_num) x
    push_cast at h
    exact h
  · by_cases h2 : C = "Medium"
    · simp [HOURS_RANGES, h1, h2]
      have h := round1_clamp_bounds (a := 6) (b := 15) (by norm_num) x
      push_cast at h
      exact h
    · simp [HOURS_RANGES, h1, h2]
      have h := round1_clamp_bounds (a := 15) (b := 25) (by norm_num) x
      push_cast at h
      exact h

/-! ## Claims -/

/-- C1, counterexample to the universally quantified part: a host whose first
page has raw size 100 but holds only pull requests. The claim says any page
of raw size 100 continues to the next page even when the filtered issue count
is lower; here the filtered count is 0 (lower than 100), yet the fetch stops
after page 1 with an empty collection instead of continuing to page 2. -/
theorem C1_counterexample :
    (hostOnlyPRs 1).items.length = per_page ∧
    ((hostOnlyPRs 1).items.filter fun item => !item.isPullRequest).length = 0 ∧
    fetch_issues hostOnlyPRs 10 = some (.ok [] 1) :=
  ⟨by decide, by decide, by decide⟩

/-- C1 (amended): fetch_issues pages through the open-issues endpoint at page
size 100 and judges the "shorter than a full page" termination test on the
unfiltered page size: raw pages of sizes 100, 100, 37 yield exactly 237
collected issues and stop after the third page, and a page of raw size 100
from which at least one issue remains after filtering out pull requests
continues to the next page even when the filtered count is lower than 100;
however, a page from which nothing remains after filtering terminates the
loop regardless of its raw size. -/
theorem C1_pagination :
    (fetch_issues host237 10 = some (.ok (List.replicate 237 ⟨false, 0⟩) 3) ∧
      (List.replicate 237 (⟨false, 0⟩ : GHItem)).length = 237) ∧
    (∀ (response : GHResponse) (issues : List GHItem),
      response.status = 200 → response.items.length = per_page →
      (response.items.filter fun item => !item.isPullRequest) ≠ [] →
      processPage response issues =
        .nextPage (issues ++ response.items.filter fun item => !item.isPullRequest)) := by
  constructor
  · exact ⟨by decide, by decide⟩
  · intro response issues h200 hlen hne
    unfold processPage
    rw [h200]
    simp only [List.isEmpty_iff, hne, if_false, hlen]
    norm_num

/-- C1 witness: the universally quantified part applied to a page mixing 60
issues with 40 pull requests. -/
theorem C1_pagination_witness :
    processPage mixedPage [] =
      .nextPage ([] ++ mixedPage.items.filter fun item => !item.isPullRequest) :=
  C1_pagination.2 mixedPage [] (by decide) (by decide) (by decide)

/-- C2: every verdict returned by the response parser has a complexity in
the closed set Low, Medium, High (with the tier intervals 1 to 6, 6 to 15 and
15 to 25 as in HOURS_RANGES), with estimated hours lying within the interval
of its own tier; an unrecognized complexity value is coerced to Medium; and a
response claiming tier Low with 20 hours is clamped to 6 hours. -/
theorem C2_verdict_bounds :
    (HOURS_RANGES "Low" = (1, 6) ∧ HOURS_RANGES "Medium" = (6, 15) ∧
      HOURS_RANGES "High" = (15, 25)) ∧
    (∀ pf : ParsedForm,
      ((parse_llm_response pf).complexity = "Low" ∨
       (parse_llm_response pf).complexity = "Medium" ∨
       (parse_llm_response pf).complexity = "High") ∧
      (HOURS_RANGES (parse_llm_response pf).complexity).1
        ≤ (parse_llm_response pf).estimated_hours ∧
      (parse_llm_response pf).estimated_hours
        ≤ (HOURS_RANGES (parse_llm_response pf).complexity).2) ∧
    (∀ (s : String) (h : Option ℚ) (r : Option String),
      ¬(s = "Low" ∨ s = "Medium" ∨ s = "High") →
      (parse_llm_response (.object (some s) h r)).complexity = "Medium") ∧
    (∀ r : Option String,
      (parse_llm_response (.object (some "Low") (some 20) r)).estimated_hours = 6) := by
  refine ⟨⟨by unfold HOURS_RANGES; rw [if_pos rfl],
    by unfold HOURS_RANGES; rw [if_neg (by decide), if_pos rfl],
    by unfold HOURS_RANGES; rw [if_neg (by decide), if_neg (by decide)]⟩,
    ?_, ?_, ?_⟩
  · intro pf
    cases pf with
    | failure em rp =>
        refine ⟨Or.inr (Or.inl rfl), ?_, ?_⟩ <;> simp [parse_llm_response, HOURS_RANGES] <;>
          norm_num
    | object c h r =>
        have hmem : ((parse_llm_response (.object c h r)).complexity = "Low" ∨
            (parse_llm_response (.object c h r)).complexity = "Medium" ∨
            (parse_llm_response (.object c h r)).complexity = "High") := by
          simp only [parse_llm_response]
          split_ifs with hc
          · exact hc
          · exact Or.inr (Or.inl rfl)
        refine ⟨hmem, ?_⟩
        simp only [parse_llm_response]
        exact hours_range_round1 _ (h.getD 8)
  · intro s h r hs
    simp only [parse_llm_response, Option.getD_some]
    rw [if_neg hs]
  · intro r
    simp only [parse_llm_response, Option.getD_some]
    norm_num [HOURS_RANGES]
    exact_mod_cast round1_intCast 6

/-- C2 witness: the coercion part applied to the unrecognized complexity
value Huge, and the clamp example applied at a concrete reasoning value. -/
theorem C2_verdict_bounds_witness :
    (parse_llm_response (.object (some "Huge") none none)).complexity = "Medium" ∧
    (parse_llm_response (.object (some "Low") (some 20) (some "x"))).estimated_hours = 6 :=
  ⟨C2_verdict_bounds.2.2.1 "Huge" none none (by decide),
   C2_verdict_bounds.2.2.2 (some "x")⟩

/-- C9: the fetch loop maps upstream statuses to typed failures: 404 raises
the repository-not-found error whose message is "Repository not found or is
private"; 403 with the rate-limit-remaining header equal to "0" raises the
rate-limit error whose message asks for a GITHUB_TOKEN credential and
reports how many issues were collected so far; 403 with any other remaining
signal raises the generic rate-limit error; any other non-200 status raises
the API error carrying that status code. -/
theorem C9_status_mapping :
    ∀ (response : GHResponse) (issues : List GHItem),
      (response.status = 404 →
        processPage response issues = .failed .notFound ∧
        fetchErrorMessage .notFound = "Repository not found or is private") ∧
      (response.status = 403 → response.rateLimitRemaining.getD "unknown" = "0" →
        processPage response issues = .failed (.rateLimitZero issues.length) ∧
        fetchErrorMessage (.rateLimitZero issues.length) =
          "GitHub API rate limit exceeded (0 requests remaining). Please add a GITHUB_TOKEN environment variable for higher limits (5000/hour vs 60/hour). Current issues fetched: "
            ++ toString issues.length) ∧
      (response.status = 403 → response.rateLimitRemaining.getD "unknown" ≠ "0" →
        processPage response issues = .failed .rateLimited) ∧
      (response.status ≠ 200 → response.status ≠ 403 → response.status ≠ 404 →
        processPage response issues = .failed (.apiError response.status)) := by
  intro response issues
  refine ⟨?_, ?_, ?_, ?_⟩
  · intro h404
    unfold processPage
    rw [h404]
    exact ⟨rfl, rfl⟩
  · intro h403 hzero
    unfold processPage
    rw [h403, if_neg (by norm_num), if_pos rfl, if_pos hzero]
    exact ⟨rfl, rfl⟩
  · intro h403 hnz
    unfold processPage
    rw [h403, if_neg (by norm_num), if_pos rfl, if_neg hnz]
  · intro h200 h403 h404
    unfold processPage
    rw [if_neg h404, if_neg h403, if_pos h200]

/-- C9 witness: the 403 sub-case with the rate-limit-remaining header "0"
and one issue already collected, applied concretely. -/
theorem C9_status_mapping_witness :
    processPage ⟨403, some "0", []⟩ [⟨false, 5⟩] = .failed (.rateLimitZero 1) ∧
    fetchErrorMessage (.rateLimitZero ([(⟨false, 5⟩ : GHItem)].length)) =
      "GitHub API rate limit exceeded (0 requests remaining). Please add a GITHUB_TOKEN environment variable for higher limits (5000/hour vs 60/hour). Current issues fetched: "
        ++ toString ([(⟨false, 5⟩ : GHItem)].length) :=
  (C9_status_mapping ⟨403, some "0", []⟩ [⟨false, 5⟩]).2.1 rfl rfl

/-- C3, counterexample to the reasoning part of the claim: a call whose
model output is unparseable returns the Medium / 8.0 default, but its
reasoning is the parsing-error string, which does not contain the phrase
"manual review recommended" in any capitalization, contradicting the claim
that every internal failure yields the fixed manual-review reasoning. -/
theorem C3_counterexample :
    (analyze_issue [] (.responded (.failure "Expecting value" "garbage")) "t" "" []).1.complexity
      = "Medium" ∧
    (analyze_issue [] (.responded (.failure "Expecting value" "garbage")) "t" "" []).1.estimated_hours
      = 8 ∧
    (analyze_issue [] (.responded (.failure "Expecting value" "garbage")) "t" "" []).1.reasoning =
      "Default estimate due to parsing error: Expecting value. Raw response: garbage..." ∧
    ¬ List.IsInfix ("anual review recommended").data
      ((analyze_issue [] (.responded (.failure "Expecting value" "garbage")) "t" "" []).1.reasoning).data :=
  ⟨rfl, rfl, by decide, by decide⟩

/-- C3 (amended): analyze_issue never propagates an internal failure to its
caller. On a raised external call (network error, timeout), a call that is
not a cache hit returns exactly the default verdict: complexity Medium, 8.0
estimated hours, an 8-hour default cost of 640, and a reasoning string ending
in "Manual review recommended." (prefixed with the error text), leaving the
cache untouched. On a malformed or unparseable model output it also returns
complexity Medium with 8.0 hours, but with a reasoning string describing the
parsing error instead of the manual-review phrase. -/
theorem C3_no_propagation :
    ∀ (cache : List (String × Analysis)) (t b : String) (ls : List String),
      cache.lookup (cache_key t b ls) = none →
      (∀ e : String,
        analyze_issue cache (.raised e) t b ls =
          ({ complexity := "Medium", estimated_hours := 8,
             estimated_cost := round2 (8 * DEFAULT_HOURLY_RATE),
             reasoning := "Default estimate due to error: " ++ e ++ ". Manual review recommended." },
           cache, true) ∧
        round2 (8 * DEFAULT_HOURLY_RATE) = 640) ∧
      (∀ em rp : String,
        (analyze_issue cache (.responded (.failure em rp)) t b ls).1.complexity = "Medium" ∧
        (analyze_issue cache (.responded (.failure em rp)) t b ls).1.estimated_hours = 8 ∧
        (analyze_issue cache (.responded (.failure em rp)) t b ls).1.reasoning =
          "Default estimate due to parsing error: " ++ em ++ ". Raw response: " ++ rp ++ "...") := by
  intro cache t b ls hmiss
  constructor
  · intro e
    constructor
    · simp only [analyze_issue, hmiss]
    · have h1 : (8 * DEFAULT_HOURLY_RATE : ℚ) = ((640 : ℤ) : ℚ) := by
        norm_num [DEFAULT_HOURLY_RATE]
      rw [h1, round2_intCast]
      norm_num
  · intro em rp
    refine ⟨?_, ?_, ?_⟩ <;> simp only [analyze_issue, hmiss, parse_llm_response]

/-- C3 witness: the raised-call case applied to an empty cache and a
concrete timeout error. -/
theorem C3_no_propagation_witness :
    analyze_issue [] (.raised "Request timed out.") "t" "" [] =
      ({ complexity := "Medium", estimated_hours := 8,
         estimated_cost := round2 (8 * DEFAULT_HOURLY_RATE),
         reasoning := "Default estimate due to error: Request timed out.. Manual review recommended." },
       [], true) ∧
    round2 (8 * DEFAULT_HOURLY_RATE) = 640 :=
  (C3_no_propagation [] "t" "" [] rfl).1 "Request timed out."

/-- C4, counterexample: two analyze_issue calls with identical title, body
and labels, where the first call's external request fails. The failed first
call does not populate the cache, so the second identical call performs an
external classification request again, contradicting the claim that the
second of two identical calls never performs an external request. -/
theorem C4_counterexample :
    (analyze_issue [] (.raised "boom") "t" "b" ["x"]).2.2 = true ∧
    (analyze_issue (analyze_issue [] (.raised "boom") "t" "b" ["x"]).2.1 (.raised "again")
        "t" "b" ["x"]).2.2 = true :=
  ⟨rfl, rfl⟩

/-- C4 (amended): if the first of two analyze_issue calls with identical
title and body and permuted label lists receives a model response (so its
verdict is computed and cached, or was already cached), then the second call
performs no external classification request and returns a verdict identical
to the first call's. When the first call's external request raises, its
default verdict is not cached and the second call does contact the service
again. -/
theorem C4_cache_hit :
    ∀ (cache : List (String × Analysis)) (pf : ParsedForm) (call2 : LLMCall)
      (t b : String) (ls1 ls2 : List String), ls1.Perm ls2 →
      (analyze_issue (analyze_issue cache (.responded pf) t b ls1).2.1 call2 t b ls2).2.2
        = false ∧
      (analyze_issue (analyze_issue cache (.responded pf) t b ls1).2.1 call2 t b ls2).1 =
        (analyze_issue cache (.responded pf) t b ls1).1 := by
  intro cache pf call2 t b ls1 ls2 hperm
  have hkey : cache_key t b ls2 = cache_key t b ls1 := cache_key_perm t b hperm.symm
  cases hcl : cache.lookup (cache_key t b ls1) with
  | some v =>
      constructor <;> simp only [analyze_issue, hkey, hcl]
  | none =>
      constructor <;>
        simp only [analyze_issue, hkey, hcl, List.lookup, beq_self_eq_true, if_pos, cond_true]

/-- C4 witness: a successful first call on the label list b, a and a second
call on the permuted list a, b hits the cache and returns the same verdict. -/
theorem C4_cache_hit_witness :
    (analyze_issue (analyze_issue [] (.responded (.object (some "Low") (some 2) (some "r")))
        "t" "b" ["b", "a"]).2.1 (.raised "net") "t" "b" ["a", "b"]).2.2 = false ∧
    (analyze_issue (analyze_issue [] (.responded (.object (some "Low") (some 2) (some "r")))
        "t" "b" ["b", "a"]).2.1 (.raised "net") "t" "b" ["a", "b"]).1 =
      (analyze_issue [] (.responded (.object (some "Low") (some 2) (some "r")))
        "t" "b" ["b", "a"]).1 :=
  C4_cache_hit [] (.object (some "Low") (some 2) (some "r")) (.raised "net")
    "t" "b" ["b", "a"] ["a", "b"] (by decide)

/-- C10: the cache key is the fingerprint of the unseparated concatenation
of title, truncated body and sorted labels, so distinct issues can collide:
the pairs title "ab" with empty body versus title "a" with body "b", and the
label sets ab, c versus a, bc, produce equal keys; consequently a second
call for the second, different issue performs no external request and
returns the first issue's cached verdict (complexity High here) unchanged. -/
theorem C10_key_collision :
    (("ab", "") ≠ ("a", "b") ∧ cache_key "ab" "" [] = cache_key "a" "b" []) ∧
    ((["ab", "c"] : List String) ≠ ["a", "bc"] ∧
      cache_key "t" "x" ["ab", "c"] = cache_key "t" "x" ["a", "bc"]) ∧
    ((analyze_issue (analyze_issue [] (.responded (.object (some "High") (some 20) (some "r1")))
        "ab" "" []).2.1 (.responded (.object (some "Low") (some 2) (some "r2"))) "a" "b" []).2.2
      = false ∧
     (analyze_issue (analyze_issue [] (.responded (.object (some "High") (some 20) (some "r1")))
        "ab" "" []).2.1 (.responded (.object (some "Low") (some 2) (some "r2"))) "a" "b" []).1 =
       (analyze_issue [] (.responded (.object (some "High") (some 20) (some "r1"))) "ab" "" []).1 ∧
     (analyze_issue [] (.responded (.object (some "High") (some 20) (some "r1")))
        "ab" "" []).1.complexity = "High") :=
  ⟨⟨by decide, by decide⟩, ⟨by decide, by decide⟩, rfl, rfl, rfl⟩

theorem processMulti_getLast (hourly_rate : ℚ) (repos : List RepoSpec) (st0 : SessionState) :
    ((process_multiple_repos hourly_rate repos st0).2).getLast? = some completeEvent := by
  simp only [process_multiple_repos]
  rw [← List.cons_append, List.getLast?_concat]

theorem process_single_repo_fetched_status (hourly_rate : ℚ) (url o r : String)
    (its : List IssueData) (i n : ℕ) (st : SessionState) :
    (process_single_repo hourly_rate ⟨url, .fetched o r its⟩ i n st).1.status = "success" := by
  by_cases hemp : its.isEmpty <;> simp [process_single_repo, hemp]

theorem processMulti_results_get (hourly_rate : ℚ) (repos : List RepoSpec)
    (st0 : SessionState) (k : ℕ) :
    (process_multiple_repos hourly_rate repos st0).1[k]? =
      (repos[k]?).map
        (fun spec => (process_single_repo hourly_rate spec (k + 1) repos.length st0).1) := by
  simp only [process_multiple_repos, List.getElem?_map, List.getElem?_enum]
  cases repos[k]? <;> simp

/-- C5: while repository i (1-indexed) of N is being analyzed, the progress
value published for issue j of that repository's M issues equals
floor((i-1)/N*100) + floor((j/M)*(100/N)) capped at 99 (the j-th entry of
the repository's progress-write sequence), and progress is set to exactly
100, with status complete, by the completion write that ends every session's
trace. -/
theorem C5_progress_formula :
    (∀ (hourly_rate : ℚ) (spec : RepoSpec) (i n : ℕ) (st : SessionState)
       (owner repoName : String) (issues : List IssueData),
      spec.outcome = .fetched owner repoName issues →
      ∀ j, 1 ≤ j → j ≤ issues.length →
      ((process_single_repo hourly_rate spec i n st).2[j - 1]?).map SessionState.progress
        = some (min (⌊((i : ℚ) - 1) / (n : ℚ) * 100⌋ +
            ⌊((j : ℚ) / (issues.length : ℚ)) * (100 / (n : ℚ))⌋) 99)) ∧
    (∀ (hourly_rate : ℚ) (repos : List RepoSpec) (st0 : SessionState),
      ((process_multiple_repos hourly_rate repos st0).2).getLast? = some completeEvent) ∧
    completeEvent.progress = 100 ∧ completeEvent.status = "complete" := by
  refine ⟨?_, processMulti_getLast, rfl, rfl⟩
  intro hourly_rate spec i n st owner repoName issues hout j hj1 hj2
  have hlt : j - 1 < issues.length := by omega
  have hne : ¬ issues.isEmpty = true := by
    rw [List.isEmpty_iff]
    intro h
    subst h
    simp at hlt
  cases spec with
  | mk url outcome =>
    cases hout
    simp only [process_single_repo, if_neg hne, List.getElem?_map, List.getElem?_enum,
      List.getElem?_eq_getElem hlt]
    simp [issueEvent, issueProgress, baseProgress, Nat.sub_add_cancel hj1]
    have hcast : ((j - 1 : ℕ) : ℚ) + 1 = (j : ℚ) := by
      rw [Nat.cast_sub hj1]
      push_cast
      ring
    rw [hcast]

/-- C5 witness: the per-issue part applied to issue 1 of a 2-issue
repository as repository 1 of 1, and the completion write of a concrete
session. -/
theorem C5_progress_formula_witness :
    ((process_single_repo 1 ⟨"u", .fetched "o" "r" [mkIssue 0, mkIssue 1]⟩ 1 1
        connectingSeed).2[0]?).map SessionState.progress
      = some (min (⌊(((1 : ℕ) : ℚ) - 1) / ((1 : ℕ) : ℚ) * 100⌋ +
          ⌊(((1 : ℕ) : ℚ) / (([mkIssue 0, mkIssue 1] : List IssueData).length : ℚ)) *
            (100 / ((1 : ℕ) : ℚ))⌋) 99) ∧
    ((process_multiple_repos 1 [⟨"u", .fetched "o" "r" [mkIssue 0, mkIssue 1]⟩]
        connectingSeed).2).getLast? = some completeEvent :=
  ⟨C5_progress_formula.1 1 ⟨"u", .fetched "o" "r" [mkIssue 0, mkIssue 1]⟩ 1 1 connectingSeed
      "o" "r" [mkIssue 0, mkIssue 1] rfl 1 (by norm_num) (by norm_num),
    C5_progress_formula.2.1 1 [⟨"u", .fetched "o" "r" [mkIssue 0, mkIssue 1]⟩] connectingSeed⟩

/-- C6: for the concrete session of 2 repositories of 10 issues each with no
orchestrator-level failure, the sequence of progress values written to the
session's progress record (seed write included) is non-decreasing, and a
written progress of exactly 100 occurs only together with the terminal
complete status. -/
theorem C6_progress_monotone :
    List.Chain' (fun a b => a ≤ b) (trace2.map SessionState.progress) ∧
    ∀ s ∈ trace2, s.progress = 100 → s.status = "complete" := by
  have h : trace2.map (fun s => (s.progress, s.status)) =
      [(0, "connecting"), (0, "connecting"),
       (5, "connecting"), (10, "connecting"), (15, "connecting"), (20, "connecting"),
       (25, "connecting"), (30, "connecting"), (35, "connecting"), (40, "connecting"),
       (45, "connecting"), (50, "connecting"),
       (50, "connecting"),
       (55, "connecting"), (60, "connecting"), (65, "connecting"), (70, "connecting"),
       (75, "connecting"), (80, "connecting"), (85, "connecting"), (90, "connecting"),
       (95, "connecting"), (99, "connecting"),
       (100, "complete")] := by
    norm_num [trace2, repos2, issues10, mkIssue, process_multiple_repos, process_single_repo,
      issueEvent, repoBaseEvent, completeEvent, connectingSeed, issueProgress_eq,
      baseProgress_eq, List.enum, List.enumFrom]
  constructor
  · have h2 : trace2.map SessionState.progress =
        (trace2.map (fun s => (s.progress, s.status))).map Prod.fst := by
      rw [List.map_map]
      rfl
    rw [h2, h]
    simp only [List.map_cons, List.map_nil, List.chain'_cons, List.chain'_singleton]
    norm_num
  · intro s hs h100
    have hmem : (s.progress, s.status) ∈ trace2.map (fun s => (s.progress, s.status)) :=
      List.mem_map_of_mem _ hs
    rw [h] at hmem
    have hall : ∀ q ∈ ([(0, "connecting"), (0, "connecting"),
       (5, "connecting"), (10, "connecting"), (15, "connecting"), (20, "connecting"),
       (25, "connecting"), (30, "connecting"), (35, "connecting"), (40, "connecting"),
       (45, "connecting"), (50, "connecting"),
       (50, "connecting"),
       (55, "connecting"), (60, "connecting"), (65, "connecting"), (70, "connecting"),
       (75, "connecting"), (80, "connecting"), (85, "connecting"), (90, "connecting"),
       (95, "connecting"), (99, "connecting"),
       (100, "complete")] : List (ℤ × String)), q.1 = 100 → q.2 = "complete" := by decide
    exact hall _ hmem h100

/-- C7: failures are isolated at each level. A repository whose fetch
succeeded always yields a success result whose issue list has exactly one
analyzed entry per fetched issue, and any issue whose classification raised
becomes the sentinel entry with complexity Unknown, zero hours, zero cost
and the fixed failure reasoning, at its own position. A repository whose
reference resolution failed yields an error-status result carrying the
exception text, while the session's trace still ends with the complete
write and every fetched repository's result keeps status success. -/
theorem C7_failure_isolation :
    (∀ (hourly_rate : ℚ) (url owner repoName : String) (issues : List IssueData)
       (i n : ℕ) (st : SessionState),
      (process_single_repo hourly_rate ⟨url, .fetched owner repoName issues⟩ i n st).1.issues.length
        = issues.length ∧
      (∀ (k : ℕ) (it : IssueData) (m : String),
        issues[k]? = some it → it.outcome = .raised m →
        (process_single_repo hourly_rate ⟨url, .fetched owner repoName issues⟩ i n st).1.issues[k]? =
          some { issue_number := it.number, title := it.title, complexity := "Unknown",
                 estimated_hours := 0, estimated_cost := 0, labels := joinLabels it.labels,
                 url := it.url, reasoning := "Analysis failed. Manual review required." })) ∧
    (∀ (hourly_rate : ℚ) (repos : List RepoSpec) (st0 : SessionState),
      ((process_multiple_repos hourly_rate repos st0).2).getLast? = some completeEvent ∧
      (process_multiple_repos hourly_rate repos st0).1.length = repos.length ∧
      ∀ (k : ℕ) (spec : RepoSpec), repos[k]? = some spec →
        (∀ m, spec.outcome = .failure m →
          (process_multiple_repos hourly_rate repos st0).1[k]? =
            some { repo_url := spec.url, owner := "", repoName := "", issues := [],
                   total_cost := 0, total_hours := 0, issue_count := 0,
                   status := "error", errorMsg := some m, message := none }) ∧
        (∀ o r its, spec.outcome = .fetched o r its →
          ((process_multiple_repos hourly_rate repos st0).1[k]?).map RepoResult.status =
            some "success")) := by
  constructor
  · intro hourly_rate url owner repoName issues i n st
    constructor
    · by_cases hemp : issues.isEmpty
      · rw [List.isEmpty_iff] at hemp
        subst hemp
        simp [process_single_repo]
      · simp [process_single_repo, hemp]
    · intro k it m hk hout
      have hne : ¬ issues.isEmpty = true := by
        rw [List.isEmpty_iff]
        intro h
        subst h
        simp at hk
      simp only [process_single_repo, if_neg hne, List.getElem?_map, hk, Option.map_some]
      simp [classifyIssue, hout]
  · intro hourly_rate repos st0
    refine ⟨processMulti_getLast hourly_rate repos st0, ?_, ?_⟩
    · simp [process_multiple_repos]
    · intro k spec hk
      constructor
      · intro m hout
        rw [processMulti_results_get, hk]
        cases spec with
        | mk u o =>
          cases hout
          rfl
      · intro o r its hout
        rw [processMulti_results_get, hk]
        cases spec with
        | mk u oc =>
          cases hout
          simp [process_single_repo_fetched_status hourly_rate u o r its (k + 1)
            repos.length st0]

/-- C7 witness: the session mixing one valid repository with one malformed
reference reaches the complete write, the valid repository's result has
status success, and the malformed one yields the error result. -/
theorem C7_failure_isolation_witness :
    ((process_multiple_repos 80 reposMixed connectingSeed).2).getLast? = some completeEvent ∧
    ((process_multiple_repos 80 reposMixed connectingSeed).1[0]?).map RepoResult.status
      = some "success" ∧
    (process_multiple_repos 80 reposMixed connectingSeed).1[1]? =
      some { repo_url := "not a url", owner := "", repoName := "", issues := [],
             total_cost := 0, total_hours := 0, issue_count := 0,
             status := "error", errorMsg := some "Invalid GitHub repository URL format",
             message := none } :=
  ⟨(C7_failure_isolation.2 80 reposMixed connectingSeed).1,
   (((C7_failure_isolation.2 80 reposMixed connectingSeed).2.2 0 _ rfl).2 "o" "r"
      [mkIssue 1] rfl),
   (((C7_failure_isolation.2 80 reposMixed connectingSeed).2.2 1 _ rfl).1
      "Invalid GitHub repository URL format" rfl)⟩

/-- C8: a submission whose hourly rate is non-positive, or whose effective
repository-reference list (after legacy-field normalization and dropping of
blank entries) is empty or longer than 5, is rejected with a bad-request
error message, and no session is started. -/
theorem C8_validation :
    ∀ (repo_urls : List String) (repo_url : Option String) (hourly_rate : ℚ),
      hourly_rate ≤ 0 ∨ (effectiveRefs repo_urls repo_url).length = 0 ∨
        5 < (effectiveRefs repo_urls repo_url).length →
      (∃ msg, (analyze_issues_endpoint repo_urls repo_url hourly_rate).1 = .badRequest msg) ∧
      (analyze_issues_endpoint repo_urls repo_url hourly_rate).2 = false := by
  intro repo_urls repo_url hourly_rate hbad
  simp only [analyze_issues_endpoint]
  by_cases h1 : (effectiveRefs repo_urls repo_url).isEmpty
  · rw [if_pos h1]
    exact ⟨⟨_, rfl⟩, rfl⟩
  · rw [if_neg h1]
    by_cases h2 : 5 < (effectiveRefs repo_urls repo_url).length
    · rw [if_pos h2]
      exact ⟨⟨_, rfl⟩, rfl⟩
    · rw [if_neg h2]
      have hrate : hourly_rate ≤ 0 := by
        rcases hbad with h | h | h
        · exact h
        · exact absurd (by rw [List.isEmpty_iff, ← List.length_eq_zero]; exact h) h1
        · exact absurd h h2
      rw [if_pos hrate]
      exact ⟨⟨_, rfl⟩, rfl⟩

/-- C8 witness: the empty submission with a negative hourly rate is
rejected and starts no session. -/
theorem C8_validation_witness :
    (∃ msg, (analyze_issues_endpoint [] none (-5)).1 = .badRequest msg) ∧
    (analyze_issues_endpoint [] none (-5)).2 = false :=
  C8_validation [] none (-5) (Or.inl (by norm_num))

end IssueEstimator
